import Mathlib

/-!
# Verification of the mood-based movie recommendation backend

A shallow embedding of `app.py` (Flask backend: dataset load, emotion-to-genre
mapping, recommendation filtering and sampling, poster lookup, signup), with
theorems settling the specification's claims about it.

Modelling conventions:

* Python strings are lists of characters (`PyStr`); the string operations the
  code uses — `str.lower()`, `str.strip()`, `str.split(";")`, the `in`
  substring test — are defined below with matching semantics (`Char.toLower`
  matches CPython's lowering on the ASCII data involved).
* `pandas.read_csv` output is a `MoviesCsv`: the file's column list plus rows
  whose cells are `Option PyStr` (`none` = a missing value, pandas `NaN`).
* `DataFrame.sample(k, replace=False)` draws `k` distinct rows in random
  order; the randomness is passed in explicitly as `shuffled`, an arbitrary
  permutation of the filtered rows, of which the code keeps the first `k`.
* The blocking OMDb HTTP call inside `fetch_movie_poster` is passed in as an
  `Except` value: `Except.error` is any raised exception (connection error,
  timeout, bad JSON), `Except.ok` the decoded JSON body.
-/

namespace App

/-- Python `str`, modelled as a list of characters. -/
abbrev PyStr := List Char

/-- Python `str.lower()`. -/
def pyLower (s : PyStr) : PyStr := s.map Char.toLower

/-- Removal of leading whitespace (the left half of Python `str.strip()`). -/
def lstrip (s : PyStr) : PyStr := s.dropWhile Char.isWhitespace

/-- Removal of trailing whitespace (the right half of Python `str.strip()`). -/
def rstrip (s : PyStr) : PyStr := (s.reverse.dropWhile Char.isWhitespace).reverse

/-- Python `str.strip()`. -/
def pyStrip (s : PyStr) : PyStr := rstrip (lstrip s)

/-- Helper for `pySplit`: first piece before the separator, and the remaining
pieces. -/
def pySplitAux (c : Char) : PyStr → PyStr × List PyStr
  | [] => ([], [])
  | x :: xs =>
    let r := pySplitAux c xs
    if x = c then ([], r.1 :: r.2) else (x :: r.1, r.2)

/-- Python `str.split(sep)` for a one-character separator: splits at every
occurrence of the separator, keeping empty pieces (so the result is never
empty). -/
def pySplit (c : Char) (s : PyStr) : List PyStr :=
  (pySplitAux c s).1 :: (pySplitAux c s).2

/-- Python `needle in hay` on strings: substring containment. -/
def pyIn (needle : PyStr) : PyStr → Bool
  | [] => needle.isEmpty
  | x :: xs => List.isPrefixOf needle (x :: xs) || pyIn needle xs

/-! ## Data model: `movies.csv` and its load (app.py lines 37–67) -/

/-- A raw row of `movies.csv` as parsed by `pandas.read_csv`: one cell per
required column, `none` for a missing value (pandas `NaN`). -/
structure RawRow where
  name : Option PyStr
  year : Option PyStr
  movie_rated : Option PyStr
  run_length : Option PyStr
  genres : Option PyStr
  release_date : Option PyStr
  rating : Option PyStr
deriving DecidableEq, Repr

/-- A parsed `movies.csv`: the column list found in the file plus its rows. -/
structure MoviesCsv where
  columns : List PyStr
  rows : List RawRow
deriving DecidableEq, Repr

/-- A loaded movie record.  After `movies['genres'] = movies['genres'].astype(str)`
the genres cell is always a string (a missing value has become the string
`"nan"`); the other cells keep their possibly-missing raw value. -/
structure Movie where
  name : Option PyStr
  year : Option PyStr
  movie_rated : Option PyStr
  run_length : Option PyStr
  genres : PyStr
  release_date : Option PyStr
  rating : Option PyStr
deriving DecidableEq, Repr

/-- `required_columns` (line 42). -/
def required_columns : List PyStr :=
  [String.toList "name", String.toList "year", String.toList "movie_rated",
   String.toList "run_length", String.toList "genres",
   String.toList "release_date", String.toList "rating"]

/-- `astype(str)` on one genres cell: `str(nan)` is the string `"nan"`. -/
def astypeStr (g : Option PyStr) : PyStr :=
  match g with
  | none => String.toList "nan"
  | some s => s

/-- A raw row after the load block's genres coercion (line 47). -/
def toMovieRow (r : RawRow) : Movie :=
  { name := r.name, year := r.year, movie_rated := r.movie_rated,
    run_length := r.run_length, genres := astypeStr r.genres,
    release_date := r.release_date, rating := r.rating }

/-- The ways the load block can fail (each branch calls `sys.exit()`, so the
process never serves traffic on failure). -/
inductive DatasetError where
  | fileNotFound
  | missingColumns
deriving DecidableEq, Repr

/-- The `try:` block loading `movies.csv` (lines 37–67).  `none` stands for a
file that is missing or unreadable; otherwise the required-column check runs
and the genres column is coerced to strings.  Row values are not inspected. -/
def loadMovies (input : Option MoviesCsv) : Except DatasetError (List Movie) :=
  match input with
  | none => Except.error DatasetError.fileNotFound
  | some csv =>
    if required_columns.all (fun c => csv.columns.contains c) then
      Except.ok (csv.rows.map toMovieRow)
    else
      Except.error DatasetError.missingColumns

/-- `all_genres` (lines 51–54): every record's genres cell split on `";"`,
each piece stripped then lowercased, collected into a set (modelled as a
deduplicated list; only membership is ever used). -/
def all_genres (ds : List Movie) : List PyStr :=
  (ds.flatMap (fun m =>
    (pySplit ';' m.genres).map (fun genre => pyLower (pyStrip genre)))).dedup

/-- The `emotion_to_genres` table (lines 56–61) together with the
`.get(emotion, [])` lookup of line 127. -/
def emotion_to_genres (ds : List Movie) (emotion : PyStr) : List PyStr :=
  if emotion = String.toList "happy" then
    [String.toList "comedy", String.toList "animation", String.toList "music",
     String.toList "romance", String.toList "fantasy"]
  else if emotion = String.toList "sad" then
    [String.toList "drama", String.toList "biography", String.toList "history",
     String.toList "war"]
  else if emotion = String.toList "angry" then
    [String.toList "action", String.toList "thriller", String.toList "crime"]
  else if emotion = String.toList "mixed" then all_genres ds
  else []

/-! ## Poster lookup (lines 69–86) -/

/-- The decoded JSON body of an OMDb response, as accessed by the code:
`data.get("Response")` and `data.get("Poster")` (`none` = key absent). -/
structure OmdbData where
  response : Option PyStr
  poster : Option PyStr
deriving DecidableEq, Repr

/-- The fallback URL appearing three times in `fetch_movie_poster`. -/
def placeholder_url : PyStr :=
  String.toList "https://via.placeholder.com/200?text=No+Image"

/-- `fetch_movie_poster` (lines 73–86).  `outcome` is the result of
`requests.get(...)` plus `response.json()`: `Except.error` for any raised
exception (caught by the bare `except`), `Except.ok` for a decoded body. -/
def fetch_movie_poster (movie_name : PyStr) (outcome : Except PyStr OmdbData) :
    PyStr :=
  match movie_name, outcome with
  | _, Except.error _ => placeholder_url
  | _, Except.ok data =>
    if data.response = some (String.toList "True") then
      (data.poster).getD placeholder_url
    else
      placeholder_url

/-! ## User store and signup (lines 24–34, 89–106) -/

/-- One row of the `users` table. -/
structure UserRec where
  email : PyStr
  password : PyStr
deriving DecidableEq, Repr

/-- An HTTP reply: status code plus the `message` field of the JSON body. -/
structure HttpReply where
  status : Nat
  message : PyStr
deriving DecidableEq, Repr

/-- `signup` (lines 89–106): if a user with the same email exists the store
is left unchanged and a 400 is returned; otherwise the user is inserted and a
200 is returned.  Result: the reply and the store after the call. -/
def signup (store : List UserRec) (email password : PyStr) :
    HttpReply × List UserRec :=
  if store.any (fun u => u.email == email) then
    (⟨400, String.toList "User already exists"⟩, store)
  else
    (⟨200, String.toList "User registered successfully"⟩,
      store ++ [⟨email, password⟩])

/-! ## Recommendation endpoint (lines 123–165) -/

/-- The per-row genre test of line 136:
`any(genre.lower().strip() in x.lower() for genre in genres)`. -/
def genreMatch (genres : List PyStr) (x : PyStr) : Bool :=
  genres.any (fun genre => pyIn (pyStrip (pyLower genre)) (pyLower x))

/-- The row filter of lines 135–137 (`filtered_movies`). -/
def filtered_movies (ds : List Movie) (genres : List PyStr) : List Movie :=
  ds.filter (fun m => genreMatch genres m.genres)

/-- One entry of the JSON array assembled in lines 150–159. -/
structure Recommendation where
  name : Option PyStr
  year : Option PyStr
  movie_rated : Option PyStr
  run_length : Option PyStr
  genres : PyStr
  release_date : Option PyStr
  rating : Option PyStr
  image_url : PyStr
deriving DecidableEq, Repr

/-- Lines 148–159 for one sampled row: decorate it with a poster URL. -/
def decorate (fetch : Option PyStr → PyStr) (m : Movie) : Recommendation :=
  { name := m.name, year := m.year, movie_rated := m.movie_rated,
    run_length := m.run_length, genres := m.genres,
    release_date := m.release_date, rating := m.rating,
    image_url := fetch m.name }

/-- The movie part of a decorated recommendation. -/
def Recommendation.movieOf (r : Recommendation) : Movie :=
  { name := r.name, year := r.year, movie_rated := r.movie_rated,
    run_length := r.run_length, genres := r.genres,
    release_date := r.release_date, rating := r.rating }

/-- A `/recommend/<emotion>` response: the JSON list of recommendations, or
an error status with the `message` of the JSON body. -/
inductive RecommendResponse where
  | ok (recs : List Recommendation)
  | err (status : Nat) (message : PyStr)
deriving DecidableEq, Repr

/-- `recommend_movies` (lines 123–165).  `shuffled` is the random order in
which `DataFrame.sample` would emit the filtered rows (a draw of `k` rows
without replacement is the first `k` entries of a uniformly random
permutation); `fetch` is the poster lookup, already closed over the network
outcome for each title. -/
def recommend_movies (ds : List Movie) (emotion : PyStr)
    (shuffled : List Movie) (fetch : Option PyStr → PyStr) :
    RecommendResponse :=
  let genres := emotion_to_genres ds emotion
  if genres = [] then
    RecommendResponse.err 400 (String.toList "Invalid emotion")
  else
    let filtered := filtered_movies ds genres
    if filtered = [] then
      RecommendResponse.ok []
    else
      RecommendResponse.ok
        ((shuffled.take (min 3 filtered.length)).map (decorate fetch))

/-! ## Matching policies as the specification words them -/

/-- Spec policy (a), written from the spec's words: "split the record's genre
field on its delimiter, compare each resulting token
case-insensitively/trimmed against each query token". -/
def exactTokenMatch (genres : List PyStr) (x : PyStr) : Bool :=
  (pySplit ';' x).any (fun t =>
    genres.any (fun g => pyLower (pyStrip t) == pyStrip (pyLower g)))

/-- Spec policy (b), written from the spec's words: "query token appears
anywhere within the lowercased genre field" (query tokens compared
"case-insensitively, trimmed"). -/
def substringMatch (genres : List PyStr) (x : PyStr) : Bool :=
  genres.any (fun g => pyIn (pyStrip (pyLower g)) (pyLower x))

/-- The genre universe as the spec's data-model section words it: the set of
trimmed, lowercased tokens obtained by splitting every record's genres field
on the semicolon delimiter. -/
def specGenreUniverse (ds : List Movie) : Set PyStr :=
  { g | ∃ m ∈ ds, ∃ p ∈ pySplit ';' m.genres, g = pyLower (pyStrip p) }

/-- Sample record builder for concrete test inputs. -/
def mkMovie (genres : PyStr) : Movie :=
  { name := some (String.toList "X"), year := some (String.toList "2000"),
    movie_rated := some (String.toList "PG"),
    run_length := some (String.toList "2h 0min"),
    genres := genres,
    release_date := some (String.toList "1 Jan 2000"),
    rating := some (String.toList "7.5") }

/-- A raw `movies.csv` with every required column whose single row has a
missing (null) `name` cell. -/
def nullNameCsv : MoviesCsv :=
  { columns := required_columns,
    rows := [{ name := none, year := some (String.toList "2000"),
               movie_rated := some (String.toList "PG"),
               run_length := some (String.toList "2h 0min"),
               genres := some (String.toList "Comedy"),
               release_date := some (String.toList "1 Jan 2000"),
               rating := some (String.toList "7.5") }] }

/-! ## Character-level facts about `Char.toLower` and `Char.isWhitespace` -/

theorem char_toNat_ofNat {n : Nat} (h : n.isValidChar) : (Char.ofNat n).toNat = n := by
  unfold Char.ofNat
  rw [dif_pos h]
  rfl

theorem char_toLower_of_upper {c : Char} (h1 : 65 ≤ c.toNat) (h2 : c.toNat ≤ 90) :
    (Char.toLower c).toNat = c.toNat + 32 := by
  simp only [Char.toLower]
  rw [if_pos ⟨h1, h2⟩]
  exact char_toNat_ofNat (Or.inl (by omega))

theorem char_toLower_of_not_upper {c : Char} (h : ¬ (65 ≤ c.toNat ∧ c.toNat ≤ 90)) :
    Char.toLower c = c := by
  simp only [Char.toLower]
  rw [if_neg h]

theorem char_toLower_idem (c : Char) :
    Char.toLower (Char.toLower c) = Char.toLower c := by
  by_cases h : 65 ≤ c.toNat ∧ c.toNat ≤ 90
  · have h3 : (Char.toLower c).toNat = c.toNat + 32 := char_toLower_of_upper h.1 h.2
    exact char_toLower_of_not_upper (by omega)
  · simp only [char_toLower_of_not_upper h]

theorem char_eq_iff_toNat {c d : Char} : c = d ↔ c.toNat = d.toNat := by
  constructor
  · intro h; rw [h]
  · intro h; exact Char.ext (UInt32.toNat.inj h)

theorem char_isWhitespace_iff {c : Char} :
    c.isWhitespace = true ↔
      c.toNat = 32 ∨ c.toNat = 9 ∨ c.toNat = 13 ∨ c.toNat = 10 := by
  have h32 : (' ' : Char).toNat = 32 := rfl
  have h9 : ('\t' : Char).toNat = 9 := rfl
  have h13 : ('\x0d' : Char).toNat = 13 := rfl
  have h10 : ('\n' : Char).toNat = 10 := rfl
  simp only [Char.isWhitespace, Bool.or_eq_true, decide_eq_true_eq,
    char_eq_iff_toNat, h32, h9, h13, h10]
  tauto

theorem char_ws_toLower (c : Char) :
    (Char.toLower c).isWhitespace = c.isWhitespace := by
  by_cases h : 65 ≤ c.toNat ∧ c.toNat ≤ 90
  · have h3 : (Char.toLower c).toNat = c.toNat + 32 := char_toLower_of_upper h.1 h.2
    have hl : (Char.toLower c).isWhitespace = false := by
      rw [← Bool.not_eq_true, char_isWhitespace_iff]
      omega
    have hr : c.isWhitespace = false := by
      rw [← Bool.not_eq_true, char_isWhitespace_iff]
      omega
    rw [hl, hr]
  · rw [char_toLower_of_not_upper h]

/-! ## String-level lemmas -/

theorem pyLower_idem (s : PyStr) : pyLower (pyLower s) = pyLower s := by
  simp only [pyLower, List.map_map]
  exact List.map_congr_left (fun c _ => char_toLower_idem c)

theorem lstrip_lstrip (s : PyStr) : lstrip (lstrip s) = lstrip s := by
  simp only [lstrip]
  induction s with
  | nil => rfl
  | cons x xs ih =>
    by_cases hx : Char.isWhitespace x
    · rw [List.dropWhile_cons_of_pos hx]
      exact ih
    · rw [List.dropWhile_cons_of_neg hx, List.dropWhile_cons_of_neg hx]

theorem rstrip_eq_reverse (s : PyStr) : rstrip s = (lstrip s.reverse).reverse := rfl

theorem rstrip_rstrip (s : PyStr) : rstrip (rstrip s) = rstrip s := by
  simp only [rstrip_eq_reverse, List.reverse_reverse]
  rw [lstrip_lstrip]

theorem rstrip_isPrefix (s : PyStr) : rstrip s <+: s := by
  have h : lstrip s.reverse <:+ s.reverse := List.dropWhile_suffix _
  have h2 := List.reverse_prefix.mpr h
  rwa [List.reverse_reverse] at h2

theorem lstrip_isSuffix (s : PyStr) : lstrip s <:+ s := List.dropWhile_suffix _

theorem pyStrip_isInfix (s : PyStr) : pyStrip s <:+: s :=
  List.IsInfix.trans (List.IsPrefix.isInfix (rstrip_isPrefix (lstrip s)))
    (List.IsSuffix.isInfix (lstrip_isSuffix s))

theorem lstrip_head_not_ws {s : PyStr} (hs : lstrip s = s) :
    s = [] ∨ ∃ a t, s = a :: t ∧ a.isWhitespace = false := by
  cases s with
  | nil => exact Or.inl rfl
  | cons a t =>
    refine Or.inr ⟨a, t, rfl, ?_⟩
    by_contra hws
    have hws' : a.isWhitespace = true := by
      cases h : a.isWhitespace
      · exact absurd h hws
      · rfl
    have := hs
    rw [lstrip, List.dropWhile_cons_of_pos hws'] at this
    have hlen : (List.dropWhile Char.isWhitespace t).length ≤ t.length :=
      List.Sublist.length_le (List.dropWhile_sublist _)
    rw [this] at hlen
    simp at hlen

theorem lstrip_rstrip_of_lstripped {s : PyStr} (hs : lstrip s = s) :
    lstrip (rstrip s) = rstrip s := by
  rcases lstrip_head_not_ws hs with h | ⟨a, t, rfl, ha⟩
  · rw [h]
    rfl
  · rcases rstrip_isPrefix (a :: t) with ⟨k, hk⟩
    cases hr : rstrip (a :: t) with
    | nil => rfl
    | cons b u =>
      rw [hr] at hk
      have hb : b = a := by
        have := hk
        simp only [List.cons_append] at this
        exact (List.cons.injEq _ _ _ _ ▸ this).1
      rw [lstrip, hb, List.dropWhile_cons_of_neg (by rw [ha]; exact Bool.false_ne_true)]

theorem pyStrip_idem (s : PyStr) : pyStrip (pyStrip s) = pyStrip s := by
  have h1 : lstrip (lstrip s) = lstrip s := lstrip_lstrip s
  have h2 : lstrip (rstrip (lstrip s)) = rstrip (lstrip s) :=
    lstrip_rstrip_of_lstripped h1
  simp only [pyStrip]
  rw [h2, rstrip_rstrip]

theorem lstrip_pyLower (s : PyStr) : lstrip (pyLower s) = pyLower (lstrip s) := by
  simp only [lstrip, pyLower]
  rw [List.dropWhile_map]
  have hf : (Char.isWhitespace ∘ Char.toLower) = Char.isWhitespace := by
    funext c
    exact char_ws_toLower c
  rw [hf]

theorem rstrip_pyLower (s : PyStr) : rstrip (pyLower s) = pyLower (rstrip s) := by
  simp only [rstrip, pyLower]
  rw [← List.map_reverse, List.dropWhile_map]
  have hf : (Char.isWhitespace ∘ Char.toLower) = Char.isWhitespace := by
    funext c
    exact char_ws_toLower c
  rw [hf, List.map_reverse]

theorem pyStrip_pyLower (s : PyStr) : pyStrip (pyLower s) = pyLower (pyStrip s) := by
  simp only [pyStrip]
  rw [lstrip_pyLower, rstrip_pyLower]

/-- The normalized query token the matcher computes (`genre.lower().strip()`)
on an already-normalized token (`genre.strip().lower()`) is that token. -/
theorem normalize_fixed (p : PyStr) :
    pyStrip (pyLower (pyLower (pyStrip p))) = pyLower (pyStrip p) := by
  rw [pyLower_idem, pyStrip_pyLower, pyStrip_idem]

/-! ## `pyIn` and `pySplit` lemmas -/

theorem pyIn_iff {n h : PyStr} : pyIn n h = true ↔ n <:+: h := by
  induction h with
  | nil =>
    simp only [pyIn, List.isEmpty_iff, List.infix_nil]
  | cons x xs ih =>
    simp only [pyIn, Bool.or_eq_true, List.isPrefixOf_iff_prefix, ih,
      List.infix_cons_iff]

theorem pySplitAux_pieces (c : Char) (l : PyStr) :
    (pySplitAux c l).1 <+: l ∧ ∀ q ∈ (pySplitAux c l).2, q <:+: l := by
  induction l with
  | nil =>
    exact ⟨List.prefix_refl _, by intro q hq; simp [pySplitAux] at hq⟩
  | cons x xs ih =>
    simp only [pySplitAux]
    by_cases hx : x = c
    · rw [if_pos hx]
      refine ⟨List.nil_prefix, ?_⟩
      intro q hq
      rcases List.mem_cons.mp hq with hq | hq
      · exact hq ▸ List.infix_cons (List.IsPrefix.isInfix ih.1)
      · exact List.infix_cons (ih.2 q hq)
    · rw [if_neg hx]
      refine ⟨?_, ?_⟩
      · rcases ih.1 with ⟨k, hk⟩
        exact ⟨k, by rw [List.cons_append, hk]⟩
      · intro q hq
        exact List.infix_cons (ih.2 q hq)

theorem pySplit_infix {c : Char} {l q : PyStr} (hq : q ∈ pySplit c l) :
    q <:+: l := by
  rcases List.mem_cons.mp hq with h | h
  · exact h ▸ List.IsPrefix.isInfix (pySplitAux_pieces c l).1
  · exact (pySplitAux_pieces c l).2 q h

theorem pySplit_ne_nil (c : Char) (l : PyStr) : pySplit c l ≠ [] := by
  simp [pySplit]

/-- Every query token of the form `strip-then-lower of a piece of a record's
genres field` passes the matcher's per-row test on that field. -/
theorem genreMatch_of_token {x p : PyStr} (hp : p ∈ pySplit ';' x)
    {genres : List PyStr} (hg : pyLower (pyStrip p) ∈ genres) :
    genreMatch genres x = true := by
  rw [genreMatch, List.any_eq_true]
  refine ⟨pyLower (pyStrip p), hg, ?_⟩
  rw [normalize_fixed, pyIn_iff]
  have h1 : pyStrip p <:+: p := pyStrip_isInfix p
  have h2 : p <:+: x := pySplit_infix hp
  exact List.IsInfix.map Char.toLower (List.IsInfix.trans h1 h2)

/-! ## Shared facts about the endpoint -/

/-- An unrecognized emotion label falls through every branch of the table
lookup, yielding the `.get` default `[]`. -/
theorem emotion_to_genres_eq_nil {ds : List Movie} {emotion : PyStr}
    (h1 : emotion ≠ String.toList "happy") (h2 : emotion ≠ String.toList "sad")
    (h3 : emotion ≠ String.toList "angry")
    (h4 : emotion ≠ String.toList "mixed") :
    emotion_to_genres ds emotion = [] := by
  simp only [emotion_to_genres, if_neg h1, if_neg h2, if_neg h3, if_neg h4]

/-- An empty genre list makes the endpoint answer 400 "Invalid emotion". -/
theorem recommend_invalid_of_no_genres {ds : List Movie} {emotion : PyStr}
    {shuffled : List Movie} {fetch : Option PyStr → PyStr}
    (h : emotion_to_genres ds emotion = []) :
    recommend_movies ds emotion shuffled fetch =
      RecommendResponse.err 400 (String.toList "Invalid emotion") := by
  simp [recommend_movies, h]

/-- Stripping the poster decoration recovers the sampled row. -/
theorem movieOf_decorate (fetch : Option PyStr → PyStr) (m : Movie) :
    Recommendation.movieOf (decorate fetch m) = m := rfl

/-! ## Claims -/

/-- C4: for each emotion in {happy, sad, angry}, the mapper returns a fixed
non-empty list of genre tokens, the same for every dataset; for "mixed" it
returns exactly the genre universe derived from the loaded dataset — the set
of trimmed, lowercased tokens obtained by splitting every record's genres
field on the semicolon delimiter. -/
theorem C4_genres_for_fixed_and_mixed_universe (ds : List Movie) :
    (emotion_to_genres ds (String.toList "happy") =
       [String.toList "comedy", String.toList "animation", String.toList "music",
        String.toList "romance", String.toList "fantasy"] ∧
     emotion_to_genres ds (String.toList "happy") ≠ []) ∧
    (emotion_to_genres ds (String.toList "sad") =
       [String.toList "drama", String.toList "biography",
        String.toList "history", String.toList "war"] ∧
     emotion_to_genres ds (String.toList "sad") ≠ []) ∧
    (emotion_to_genres ds (String.toList "angry") =
       [String.toList "action", String.toList "thriller", String.toList "crime"] ∧
     emotion_to_genres ds (String.toList "angry") ≠ []) ∧
    (∀ g : PyStr,
      g ∈ emotion_to_genres ds (String.toList "mixed") ↔
        g ∈ specGenreUniverse ds) := by
  refine ⟨⟨rfl, List.cons_ne_nil _ _⟩, ⟨rfl, List.cons_ne_nil _ _⟩,
    ⟨rfl, List.cons_ne_nil _ _⟩, ?_⟩
  intro g
  rw [show emotion_to_genres ds (String.toList "mixed") = all_genres ds from rfl]
  simp only [all_genres, List.mem_dedup, List.mem_flatMap, List.mem_map,
    specGenreUniverse, Set.mem_setOf_eq]
  constructor
  · rintro ⟨m, hm, p, hp, h⟩
    exact ⟨m, hm, p, hp, h.symm⟩
  · rintro ⟨m, hm, p, hp, h⟩
    exact ⟨m, hm, p, hp, h.symm⟩

/-- C5: for every emotion string outside {happy, sad, angry, mixed}, the
mapper returns the empty list and the endpoint answers 400 with message
"Invalid emotion" instead of a result. -/
theorem C5_unrecognized_emotion_rejected (ds : List Movie) (emotion : PyStr)
    (shuffled : List Movie) (fetch : Option PyStr → PyStr)
    (h1 : emotion ≠ String.toList "happy") (h2 : emotion ≠ String.toList "sad")
    (h3 : emotion ≠ String.toList "angry")
    (h4 : emotion ≠ String.toList "mixed") :
    emotion_to_genres ds emotion = [] ∧
      recommend_movies ds emotion shuffled fetch =
        RecommendResponse.err 400 (String.toList "Invalid emotion") := by
  have hg : emotion_to_genres ds emotion = [] :=
    emotion_to_genres_eq_nil h1 h2 h3 h4
  exact ⟨hg, recommend_invalid_of_no_genres hg⟩

theorem C5_unrecognized_emotion_rejected_witness :
    emotion_to_genres [] (String.toList "excited") = [] ∧
      recommend_movies [] (String.toList "excited") [] (fun _ => []) =
        RecommendResponse.err 400 (String.toList "Invalid emotion") :=
  C5_unrecognized_emotion_rejected [] (String.toList "excited") [] (fun _ => [])
    (by decide) (by decide) (by decide) (by decide)

/-- C9: emotion lookup is case-sensitive — an emotion string that lowercases
to a recognized label but is not itself one of the exact labels gets the 400
"Invalid emotion" reply, not the recommendations of the lowercase label. -/
theorem C9_emotion_lookup_case_sensitive (ds : List Movie) (emotion : PyStr)
    (shuffled : List Movie) (fetch : Option PyStr → PyStr)
    (hcase : pyLower emotion = String.toList "happy" ∨
      pyLower emotion = String.toList "sad" ∨
      pyLower emotion = String.toList "angry" ∨
      pyLower emotion = String.toList "mixed")
    (h1 : emotion ≠ String.toList "happy") (h2 : emotion ≠ String.toList "sad")
    (h3 : emotion ≠ String.toList "angry")
    (h4 : emotion ≠ String.toList "mixed") :
    recommend_movies ds emotion shuffled fetch =
      RecommendResponse.err 400 (String.toList "Invalid emotion") :=
  recommend_invalid_of_no_genres (emotion_to_genres_eq_nil h1 h2 h3 h4)

theorem C9_emotion_lookup_case_sensitive_witness :
    recommend_movies [] (String.toList "Happy") [] (fun _ => []) =
      RecommendResponse.err 400 (String.toList "Invalid emotion") :=
  C9_emotion_lookup_case_sensitive [] (String.toList "Happy") [] (fun _ => [])
    (Or.inl (by decide)) (by decide) (by decide) (by decide) (by decide)

/-- C8: starting from a store where the email is unused, the first signup
succeeds with 200 "User registered successfully" and appends the user, and a
second signup with the same email fails with 400 "User already exists"
leaving the store unchanged. -/
theorem C8_signup_idempotent_rejecting (store : List UserRec)
    (email password password2 : PyStr)
    (hfree : ∀ u ∈ store, u.email ≠ email) :
    signup store email password =
      (⟨200, String.toList "User registered successfully"⟩,
        store ++ [⟨email, password⟩]) ∧
    signup (store ++ [⟨email, password⟩]) email password2 =
      (⟨400, String.toList "User already exists"⟩,
        store ++ [⟨email, password⟩]) := by
  constructor
  · rw [signup, if_neg]
    intro hany
    rcases List.any_eq_true.mp hany with ⟨u, hu, heq⟩
    exact hfree u hu (by exact_mod_cast eq_of_beq heq)
  · rw [signup, if_pos]
    refine List.any_eq_true.mpr ⟨⟨email, password⟩, List.mem_append_right _ ?_, ?_⟩
    · exact List.mem_singleton_self _
    · exact beq_self_eq_true email

theorem C8_signup_idempotent_rejecting_witness :
    signup [] (String.toList "a@b.c") (String.toList "pw1") =
      (⟨200, String.toList "User registered successfully"⟩,
        [] ++ [⟨String.toList "a@b.c", String.toList "pw1"⟩]) ∧
    signup ([] ++ [⟨String.toList "a@b.c", String.toList "pw1"⟩])
        (String.toList "a@b.c") (String.toList "pw2") =
      (⟨400, String.toList "User already exists"⟩,
        [] ++ [⟨String.toList "a@b.c", String.toList "pw1"⟩]) :=
  C8_signup_idempotent_rejecting [] (String.toList "a@b.c")
    (String.toList "pw1") (String.toList "pw2") (by intro u hu; cases hu)

/-- C7: matching is case- and whitespace-insensitive on genre tokens — every
dataset record whose genres field tokenizes (split on ";", strip, lowercase)
to ["action", "thriller"] — i.e. any casing/spacing variant of
"Action;Thriller" — is in the filtered set for emotion "angry". -/
theorem C7_action_thriller_matches_angry (ds : List Movie) (m : Movie)
    (hds : m ∈ ds)
    (hm : (pySplit ';' m.genres).map (fun p => pyLower (pyStrip p)) =
      [String.toList "action", String.toList "thriller"]) :
    m ∈ filtered_movies ds (emotion_to_genres ds (String.toList "angry")) := by
  rw [filtered_movies, List.mem_filter]
  refine ⟨hds, ?_⟩
  have hsplit : pySplit ';' m.genres =
      (pySplitAux ';' m.genres).1 :: (pySplitAux ';' m.genres).2 := rfl
  rw [hsplit, List.map_cons] at hm
  have hhead : pyLower (pyStrip (pySplitAux ';' m.genres).1) =
      String.toList "action" := by
    injection hm with h1 h2
  have hangry : emotion_to_genres ds (String.toList "angry") =
      [String.toList "action", String.toList "thriller",
       String.toList "crime"] := rfl
  show genreMatch (emotion_to_genres ds (String.toList "angry")) m.genres = true
  refine genreMatch_of_token (p := (pySplitAux ';' m.genres).1) ?_ ?_
  · rw [hsplit]
    exact List.mem_cons_self _ _
  · rw [hhead, hangry]
    exact List.mem_cons_self _ _

theorem C7_action_thriller_matches_angry_witness :
    mkMovie (String.toList " aCtIon ;THRILLER") ∈
      filtered_movies [mkMovie (String.toList " aCtIon ;THRILLER")]
        (emotion_to_genres [mkMovie (String.toList " aCtIon ;THRILLER")]
          (String.toList "angry")) :=
  C7_action_thriller_matches_angry _ _ (List.mem_cons_self _ _) (by decide)

/-- C6: when the resolved genre list is non-empty, the endpoint never errors:
an empty filtered set yields the empty JSON list, and otherwise the reply
holds exactly min(3, match-count) rows that form a subpermutation of the
filtered rows — pairwise-distinct rows drawn without replacement, length at
most 3 and at most the match count. -/
theorem C6_sample_min_three_without_replacement (ds : List Movie)
    (emotion : PyStr) (shuffled : List Movie) (fetch : Option PyStr → PyStr)
    (hgen : emotion_to_genres ds emotion ≠ [])
    (hperm : List.Perm shuffled (filtered_movies ds (emotion_to_genres ds emotion))) :
    ∃ recs,
      recommend_movies ds emotion shuffled fetch = RecommendResponse.ok recs ∧
      recs.length =
        min 3 (filtered_movies ds (emotion_to_genres ds emotion)).length ∧
      List.Subperm (recs.map Recommendation.movieOf)
        (filtered_movies ds (emotion_to_genres ds emotion)) := by
  by_cases hf : filtered_movies ds (emotion_to_genres ds emotion) = []
  · refine ⟨[], ?_, ?_, ?_⟩
    · simp only [recommend_movies]
      rw [if_neg hgen, if_pos hf]
    · rw [hf]
      rfl
    · exact List.nil_subperm
  · refine ⟨(shuffled.take
        (min 3 (filtered_movies ds (emotion_to_genres ds emotion)).length)).map
          (decorate fetch), ?_, ?_, ?_⟩
    · simp only [recommend_movies]
      rw [if_neg hgen, if_neg hf]
    · rw [List.length_map, List.length_take, hperm.length_eq]
      exact Nat.min_eq_left (Nat.min_le_right _ _)
    · rw [List.map_map,
        show Recommendation.movieOf ∘ decorate fetch = id from rfl,
        List.map_id]
      exact List.Subperm.trans
        (List.Sublist.subperm (List.take_sublist _ _))
        (List.Perm.subperm hperm)

theorem C6_sample_min_three_without_replacement_witness :
    ∃ recs,
      recommend_movies [mkMovie (String.toList "Comedy")]
          (String.toList "happy")
          (filtered_movies [mkMovie (String.toList "Comedy")]
            (emotion_to_genres [mkMovie (String.toList "Comedy")]
              (String.toList "happy")))
          (fun _ => []) = RecommendResponse.ok recs ∧
      recs.length = min 3 (filtered_movies [mkMovie (String.toList "Comedy")]
        (emotion_to_genres [mkMovie (String.toList "Comedy")]
          (String.toList "happy"))).length ∧
      List.Subperm (recs.map Recommendation.movieOf)
        (filtered_movies [mkMovie (String.toList "Comedy")]
          (emotion_to_genres [mkMovie (String.toList "Comedy")]
            (String.toList "happy"))) :=
  C6_sample_min_three_without_replacement _ _ _ _ (by decide)
    (List.Perm.refl _)

/-- C10: for emotion "mixed" the filter keeps every record — each record's
own first genre token lies in the dataset-derived universe and occurs inside
the record's lowercased genres field — so the filtered set is the whole
dataset, and for a non-empty dataset the reply holds exactly
min(3, dataset size) records. -/
theorem C10_mixed_matches_whole_dataset (ds : List Movie)
    (shuffled : List Movie) (fetch : Option PyStr → PyStr) (hds : ds ≠ [])
    (hperm : List.Perm shuffled (filtered_movies ds
      (emotion_to_genres ds (String.toList "mixed")))) :
    filtered_movies ds (emotion_to_genres ds (String.toList "mixed")) = ds ∧
    ∃ recs,
      recommend_movies ds (String.toList "mixed") shuffled fetch =
        RecommendResponse.ok recs ∧
      recs.length = min 3 ds.length := by
  have hmix : emotion_to_genres ds (String.toList "mixed") = all_genres ds := rfl
  have htok : ∀ m ∈ ds,
      pyLower (pyStrip (pySplitAux ';' m.genres).1) ∈ all_genres ds := by
    intro m hm
    rw [all_genres, List.mem_dedup, List.mem_flatMap]
    exact ⟨m, hm, List.mem_map.mpr ⟨_, List.mem_cons_self _ _, rfl⟩⟩
  have hall : ∀ m ∈ ds, genreMatch (all_genres ds) m.genres = true := by
    intro m hm
    exact genreMatch_of_token (List.mem_cons_self _ _) (htok m hm)
  have hfilter : filtered_movies ds
      (emotion_to_genres ds (String.toList "mixed")) = ds := by
    rw [hmix, filtered_movies]
    exact List.filter_eq_self.mpr (fun m hm => hall m hm)
  refine ⟨hfilter, ?_⟩
  have hgen : emotion_to_genres ds (String.toList "mixed") ≠ [] := by
    rw [hmix]
    rcases List.exists_mem_of_ne_nil ds hds with ⟨m, hm⟩
    exact List.ne_nil_of_mem (htok m hm)
  have hlen : shuffled.length = ds.length := by
    rw [hperm.length_eq, hfilter]
  refine ⟨(shuffled.take (min 3 ds.length)).map (decorate fetch), ?_, ?_⟩
  · simp only [recommend_movies]
    rw [if_neg hgen, hfilter, if_neg hds]
  · rw [List.length_map, List.length_take, hlen]
    exact Nat.min_eq_left (Nat.min_le_right _ _)

theorem C10_mixed_matches_whole_dataset_witness :
    filtered_movies [mkMovie (String.toList "Drama")]
      (emotion_to_genres [mkMovie (String.toList "Drama")]
        (String.toList "mixed")) = [mkMovie (String.toList "Drama")] ∧
    ∃ recs,
      recommend_movies [mkMovie (String.toList "Drama")]
          (String.toList "mixed")
          (filtered_movies [mkMovie (String.toList "Drama")]
            (emotion_to_genres [mkMovie (String.toList "Drama")]
              (String.toList "mixed")))
          (fun _ => []) = RecommendResponse.ok recs ∧
      recs.length = min 3 ([mkMovie (String.toList "Drama")] : List Movie).length :=
  C10_mixed_matches_whole_dataset _ _ _ (by decide) (List.Perm.refl _)

/-- C1 fails on the code: the record whose genres field is the single token
"Warfare" lands in the filtered set for the "sad" query genres (which include
"war"), although none of its own tokens equals any query token — the filter
tests substring containment, not exact-token membership. -/
theorem C1_counterexample :
    mkMovie (String.toList "Warfare") ∈
      filtered_movies [mkMovie (String.toList "Warfare")]
        (emotion_to_genres [mkMovie (String.toList "Warfare")]
          (String.toList "sad")) ∧
    exactTokenMatch
      (emotion_to_genres [mkMovie (String.toList "Warfare")]
        (String.toList "sad"))
      (String.toList "Warfare") = false := by
  decide

/-- C1 (amended): the matching policy the code implements is substring
containment — a record is in the filtered set for a genre list iff it is in
the dataset and some query token (lowercased, trimmed) occurs as a substring
of the record's lowercased genres field; in particular a record whose genres
field contains the token "Warfare" does match the query token "war". -/
theorem C1_matching_is_substring_containment (ds : List Movie)
    (genres : List PyStr) (m : Movie) :
    (m ∈ filtered_movies ds genres ↔
      m ∈ ds ∧ substringMatch genres m.genres = true) ∧
    substringMatch [String.toList "war"] (String.toList "Warfare") = true := by
  constructor
  · rw [filtered_movies, List.mem_filter]
    exact Iff.rfl
  · decide

/-- C2 fails on the code: a CSV having every required column whose single
record has a null `name` cell loads successfully — the load validates column
presence only — and the null value survives into the loaded record. -/
theorem C2_counterexample :
    loadMovies (some nullNameCsv) =
      Except.ok [{ name := none, year := some (String.toList "2000"),
                   movie_rated := some (String.toList "PG"),
                   run_length := some (String.toList "2h 0min"),
                   genres := String.toList "Comedy",
                   release_date := some (String.toList "1 Jan 2000"),
                   rating := some (String.toList "7.5") }] ∧
    (∃ ds, loadMovies (some nullNameCsv) = Except.ok ds) :=
  ⟨rfl, ⟨_, rfl⟩⟩

/-- C2 (amended): the load is fail-fast on the file and its columns only — it
produces a dataset iff the file is readable and every required column is
present, in which case every row is loaded unconditionally (with a null
genres cell coerced to the string "nan"); record values are never checked,
so loaded records may carry null required fields. -/
theorem C2_load_validates_columns_only (input : Option MoviesCsv) :
    ((∃ ds, loadMovies input = Except.ok ds) ↔
      (∃ csv, input = some csv ∧
        required_columns.all (fun c => csv.columns.contains c) = true)) ∧
    (∀ csv, input = some csv →
      required_columns.all (fun c => csv.columns.contains c) = true →
      loadMovies input = Except.ok (csv.rows.map toMovieRow)) := by
  constructor
  · constructor
    · rintro ⟨ds, hds⟩
      match input, hds with
      | some csv, hds =>
        refine ⟨csv, rfl, ?_⟩
        by_contra hcols
        rw [loadMovies, if_neg hcols] at hds
        exact Except.noConfusion hds
    · rintro ⟨csv, rfl, hcols⟩
      exact ⟨csv.rows.map toMovieRow, by rw [loadMovies, if_pos hcols]⟩
  · rintro csv rfl hcols
    rw [loadMovies, if_pos hcols]

theorem C2_load_validates_columns_only_witness :
    loadMovies (some nullNameCsv) =
      Except.ok (nullNameCsv.rows.map toMovieRow) :=
  (C2_load_validates_columns_only (some nullNameCsv)).2 nullNameCsv rfl
    (by decide)

/-- C3 fails on the code in one respect: the fallback URL is a single fixed
constant, not a template parameterized by the title — two different failing
titles get the identical URL, which does not mention either title. -/
theorem C3_counterexample :
    fetch_movie_poster (String.toList "Inception")
        (Except.error (String.toList "timeout")) =
      fetch_movie_poster (String.toList "Up")
        (Except.error (String.toList "timeout")) ∧
    fetch_movie_poster (String.toList "Inception")
        (Except.error (String.toList "timeout")) = placeholder_url ∧
    pyIn (pyLower (String.toList "Inception")) (pyLower placeholder_url)
      = false := by
  decide

/-- C3 (amended): `fetch_movie_poster` never propagates a failure — any
raised exception or any non-"True" response yields the fixed constant
placeholder URL (identical for every title), and a "True" response yields
its Poster field, or that same constant when the key is absent. -/
theorem C3_poster_never_fails (movie_name : PyStr)
    (outcome : Except PyStr OmdbData) :
    (∀ e, outcome = Except.error e →
      fetch_movie_poster movie_name outcome = placeholder_url) ∧
    (∀ data, outcome = Except.ok data →
      data.response ≠ some (String.toList "True") →
      fetch_movie_poster movie_name outcome = placeholder_url) ∧
    (∀ data, outcome = Except.ok data →
      fetch_movie_poster movie_name outcome = placeholder_url ∨
      ∃ p, data.poster = some p ∧
        fetch_movie_poster movie_name outcome = p) := by
  refine ⟨?_, ?_, ?_⟩
  · rintro e rfl
    rfl
  · rintro data rfl hresp
    rw [fetch_movie_poster, if_neg hresp]
  · rintro data rfl
    rw [fetch_movie_poster]
    by_cases hresp : data.response = some (String.toList "True")
    · rw [if_pos hresp]
      cases hp : data.poster with
      | none => exact Or.inl rfl
      | some p => exact Or.inr ⟨p, rfl, rfl⟩
    · rw [if_neg hresp]
      exact Or.inl rfl

theorem C3_poster_never_fails_witness :
    fetch_movie_poster (String.toList "Inception")
        (Except.error (String.toList "connection error")) = placeholder_url :=
  (C3_poster_never_fails (String.toList "Inception")
    (Except.error (String.toList "connection error"))).1
    (String.toList "connection error") rfl

end App
